import Mathlib

/-!
# Verification of the admin-mcp-server analytics and dispatch core

Shallow embedding of the operations implemented by the Express/Supabase
servers of this repository (src/api/index.js and the three unnamed
variants). Timestamps are modelled as integers (milliseconds since epoch,
matching the ISO-string comparisons the backend performs on `created_at`
and `updated_at`), money and ratios as exact rationals, the Supabase
tables as in-memory lists of rows, and each HTTP handler as a pure
function from the request fields and the table contents to a response
together with the list of backend calls it issued.
-/

namespace AdminMcp

/-- A row of the `payments` table as selected by `getPaymentAnalytics`
(`select('amount, status, created_at')`). -/
structure PaymentRow where
  amount : ℚ
  status : String
  created_at : ℤ
deriving DecidableEq, Repr

/-- A row of the `profiles` table with the columns the servers touch. -/
structure UserRow where
  id : String
  email : String
  name : String
  role : String
  created_at : ℤ
  updated_at : ℤ
deriving DecidableEq, Repr

/-- JS truthiness test used by the handlers (`if (!x)`): an absent value
and the empty string are both falsy. -/
def isFalsy : Option String → Bool
  | none => true
  | some s => s == ""

/-- Rendering of an optional value inside a JS template literal:
`${action}` prints `undefined` when the value is absent. -/
def jsShow : Option String → String
  | none => "undefined"
  | some s => s

/-- 30 days in milliseconds, as in
`new Date(Date.now() - 30 * 24 * 60 * 60 * 1000)`. -/
def thirtyDaysMs : ℤ := 30 * 24 * 60 * 60 * 1000

/-- The rows fetched by `getPaymentAnalytics`: the whole `payments` table,
filtered by `.gte('created_at', startDate).lte('created_at', endDate)`
exactly when both bounds are given (`if (startDate && endDate)`). -/
def fetchedPayments (db : List PaymentRow) (startDate endDate : Option ℤ) :
    List PaymentRow :=
  match startDate, endDate with
  | some s, some e =>
      db.filter (fun p => decide (s ≤ p.created_at) && decide (p.created_at ≤ e))
  | _, _ => db

/-- Result shape of `getPaymentAnalytics`. -/
structure PaymentAnalytics where
  totalRevenue : ℚ
  totalTransactions : ℕ
  completedTransactions : ℕ
  conversionRate : ℚ
  lastUpdated : ℤ
deriving DecidableEq, Repr

/-- `getPaymentAnalytics` of src/api/index.js: sum of completed amounts,
row counts, and the guarded ratio
`totalTransactions > 0 ? (completedTransactions / totalTransactions) * 100 : 0`. -/
def getPaymentAnalytics (now : ℤ) (startDate endDate : Option ℤ)
    (db : List PaymentRow) : PaymentAnalytics :=
  let payments := fetchedPayments db startDate endDate
  let completed := payments.filter (fun p => p.status == "completed")
  let totalTransactions := payments.length
  let completedTransactions := completed.length
  { totalRevenue := (completed.map (fun p => p.amount)).sum
    totalTransactions := totalTransactions
    completedTransactions := completedTransactions
    conversionRate :=
      if totalTransactions > 0 then
        ((completedTransactions : ℚ) / (totalTransactions : ℚ)) * 100
      else 0
    lastUpdated := now }

/-- `Number.prototype.toFixed(2)` on a non-negative value, modelled as the
rational value of the produced decimal string (round half away from zero,
which for the non-negative ratios at hand is round half up). -/
def toFixed2 (q : ℚ) : ℚ := ((Int.floor (q * 100 + 1 / 2) : ℤ) : ℚ) / 100

/-- `getPaymentAnalytics` of the part_000 and part_002 variants: identical
to the canonical one except that the operation itself returns
`conversionRate.toFixed(2)`, a value rounded to two decimal places. -/
def getPaymentAnalyticsRounded (now : ℤ) (startDate endDate : Option ℤ)
    (db : List PaymentRow) : PaymentAnalytics :=
  let base := getPaymentAnalytics now startDate endDate db
  { base with conversionRate := toFixed2 base.conversionRate }

/-- Result shape of `getUserAnalytics`. -/
structure UserAnalytics where
  totalUsers : ℕ
  activeUsers : ℕ
  newUsers : ℕ
  lastUpdated : ℤ
deriving DecidableEq, Repr

/-- `getUserAnalytics` of src/api/index.js (identically in part_000's and
part_002's full servers): an unfiltered count of `profiles`, a count of
rows with `updated_at` at least 30 days before `now`
(`.gte('updated_at', new Date(Date.now() - 30*24*60*60*1000))`), and a
count of rows with `created_at` in `[startDate, endDate]` when both
bounds are given, else 0. -/
def getUserAnalytics (now : ℤ) (startDate endDate : Option ℤ)
    (db : List UserRow) : UserAnalytics :=
  let totalUsers := db.length
  let activeUsers :=
    (db.filter (fun r => decide (now - thirtyDaysMs ≤ r.updated_at))).length
  let newUsers :=
    match startDate, endDate with
    | some s, some e =>
        (db.filter (fun r =>
          decide (s ≤ r.created_at) && decide (r.created_at ≤ e))).length
    | _, _ => 0
  { totalUsers := totalUsers
    activeUsers := activeUsers
    newUsers := newUsers
    lastUpdated := now }

/-- The `get_user_analytics` case of the first server in part_001: it
issues only the total count and returns the literal object
`{ totalUsers, activeUsers: 0, newUsers: 0 }`. -/
def getUserAnalyticsMin (db : List UserRow) : UserAnalytics :=
  { totalUsers := db.length
    activeUsers := 0
    newUsers := 0
    lastUpdated := 0 }

/-- A row projection as returned by a Supabase `select` with named
columns: the produced JSON object, as an ordered field/value list. -/
def projFull (r : UserRow) : List (String × String) :=
  [("id", r.id), ("email", r.email), ("name", r.name),
   ("created_at", toString r.created_at), ("role", r.role)]

/-- The projection `select('id, email, name')` used by the `list_users`
case of the first server in part_001. -/
def projMin (r : UserRow) : List (String × String) :=
  [("id", r.id), ("email", r.email), ("name", r.name)]

/-- `list_users` of the first server in part_001:
`select('id, email, name').limit(10)` over `profiles`. -/
def listUsersMin (db : List UserRow) : List (List (String × String)) :=
  (db.take 10).map projMin

/-- The partial patch applied by `manage_user` update: Supabase
`.update(data)` changes exactly the columns present in `data`. -/
structure Patch where
  name : Option String
  email : Option String
  role : Option String
deriving DecidableEq, Repr

/-- An empty patch (no columns provided). -/
def Patch.empty : Patch := ⟨none, none, none⟩

/-- Apply a partial patch to a `profiles` row. -/
def applyPatch (p : Patch) (r : UserRow) : UserRow :=
  { r with
    name := p.name.getD r.name
    email := p.email.getD r.email
    role := p.role.getD r.role }

/-- A backend query issued through the Supabase client, recorded so that
theorems can speak about which calls a handler performed. -/
inductive BCall where
  | countProfiles : BCall
  | selectActiveProfiles (since : ℤ) : BCall
  | countNewProfiles (startDate endDate : ℤ) : BCall
  | selectPayments (startDate endDate : Option ℤ) : BCall
  | listProfiles : BCall
  | updateProfile (userId : String) : BCall
  | deleteProfile (userId : String) : BCall
deriving DecidableEq, Repr

/-- The successful result of a `manage_user` action. -/
inductive ManageValue where
  | list (users : List (List (String × String))) : ManageValue
  | updated (row : UserRow) : ManageValue
  | deleted (ok : Bool) : ManageValue
deriving DecidableEq, Repr

/-- Outcome of a `manageUser` call: the thrown-or-returned result, the
backend calls issued, and the `profiles` table afterwards. The backend
client itself is modelled as total: a query that the service accepts
succeeds, so the only errors are the ones this layer raises (the
`userId` guards, the unknown-action default, and `.single()` finding no
row on update). -/
structure ManageOut where
  result : Except String ManageValue
  calls : List BCall
  db : List UserRow
deriving Repr

/-- `manageUser` of src/api/index.js (identically in part_001's second
server): a switch on `action` with cases `list`
(`select('id, email, name, created_at, role').limit(100)`), `update`
(guarded by `if (!userId) throw`, then `.update(data).eq('id', userId)
.select().single()`), `delete` (same guard, then
`.delete().eq('id', userId)`, returning `{ deleted: true }`
unconditionally), and a default that throws `Unknown action: ${action}`. -/
def manageUser (db : List UserRow) (action userId : Option String)
    (data : Patch) : ManageOut :=
  if action = some "list" then
    ⟨.ok (.list ((db.take 100).map projFull)), [.listProfiles], db⟩
  else if action = some "update" then
    if isFalsy userId then
      ⟨.error "userId is required for update action", [], db⟩
    else
      match userId with
      | none => ⟨.error "userId is required for update action", [], db⟩
      | some uid =>
        match db.find? (fun r => r.id == uid) with
        | some r =>
            ⟨.ok (.updated (applyPatch data r)), [.updateProfile uid],
             db.map (fun r => if r.id == uid then applyPatch data r else r)⟩
        | none =>
            ⟨.error "JSON object requested, multiple (or no) rows returned",
             [.updateProfile uid], db⟩
  else if action = some "delete" then
    if isFalsy userId then
      ⟨.error "userId is required for delete action", [], db⟩
    else
      match userId with
      | none => ⟨.error "userId is required for delete action", [], db⟩
      | some uid =>
          ⟨.ok (.deleted true), [.deleteProfile uid],
           db.filter (fun r => !(r.id == uid))⟩
  else
    ⟨.error ("Unknown action: " ++ jsShow action), [], db⟩

/-- What a handler sends back, reduced to the parts the claims are
about: the HTTP status, the error message (when the body is an error
object), the backend calls issued while handling the request, and the
`profiles` table afterwards. -/
structure HandlerOut where
  status : ℕ
  errMsg : Option String
  calls : List BCall
  db : List UserRow
deriving Repr

/-- The request fields a tool invocation may carry (`params`). -/
structure Params where
  startDate : Option ℤ
  endDate : Option ℤ
  action : Option String
  userId : Option String
  data : Patch
deriving Repr

/-- `params` with every field absent. -/
def Params.empty : Params := ⟨none, none, none, none, Patch.empty⟩

/-- Backend calls issued by `getUserAnalytics`. -/
def userAnalyticsCalls (now : ℤ) (startDate endDate : Option ℤ) : List BCall :=
  [.countProfiles, .selectActiveProfiles (now - thirtyDaysMs)] ++
    match startDate, endDate with
    | some s, some e => [.countNewProfiles s e]
    | _, _ => []

/-- The tool names the `POST /mcp/call` switch of src/api/index.js
recognises. -/
def registeredMethods : List String :=
  ["get_user_analytics", "get_payment_analytics", "manage_user"]

/-- The `POST /mcp/call` handler of src/api/index.js: rejects a falsy
`method` with 400 `Method is required`, dispatches the three known
method names to the operations, answers 400
`Unknown method: ${method}` for anything else, and turns an error
thrown by an operation into status 500 with the error's message. -/
def mcpCall (now : ℤ) (udb : List UserRow) (pdb : List PaymentRow)
    (method : Option String) (p : Params) : HandlerOut :=
  if isFalsy method then ⟨400, some "Method is required", [], udb⟩
  else if method = some "get_user_analytics" then
    ⟨200, none, userAnalyticsCalls now p.startDate p.endDate, udb⟩
  else if method = some "get_payment_analytics" then
    ⟨200, none, [.selectPayments p.startDate p.endDate], udb⟩
  else if method = some "manage_user" then
    let out := manageUser udb p.action p.userId p.data
    match out.result with
    | .ok _ => ⟨200, none, out.calls, out.db⟩
    | .error e => ⟨500, some e, out.calls, out.db⟩
  else ⟨400, some ("Unknown method: " ++ jsShow method), [], udb⟩

/-- The `POST /functions/manage_user` handler of src/api/index.js:
rejects a falsy `action` with 400 `action is required`, otherwise runs
`manageUser` and maps a thrown error to status 500 with its message. -/
def functionsManageUser (db : List UserRow) (action userId : Option String)
    (data : Patch) : HandlerOut :=
  if isFalsy action then ⟨400, some "action is required", [], db⟩
  else
    let out := manageUser db action userId data
    match out.result with
    | .ok _ => ⟨200, none, out.calls, out.db⟩
    | .error e => ⟨500, some e, out.calls, out.db⟩

/-! ## Claim theorems -/

/-- C8: a `payment_analytics` call whose backend returns zero rows
completes with `totalRevenue = 0`, `totalTransactions = 0` and
`conversionRate = 0`; the division is never reached because it sits
under the `totalTransactions > 0` guard. -/
theorem payment_empty_safe (now : ℤ) (s e : Option ℤ) (db : List PaymentRow)
    (h : fetchedPayments db s e = []) :
    (getPaymentAnalytics now s e db).totalRevenue = 0 ∧
    (getPaymentAnalytics now s e db).totalTransactions = 0 ∧
    (getPaymentAnalytics now s e db).conversionRate = 0 := by
  simp [getPaymentAnalytics, h]

/-- Witness for C8 at the concrete empty table. -/
theorem payment_empty_safe_witness :
    fetchedPayments [] none none = [] ∧
    ((getPaymentAnalytics 0 none none []).totalRevenue = 0 ∧
     (getPaymentAnalytics 0 none none []).totalTransactions = 0 ∧
     (getPaymentAnalytics 0 none none []).conversionRate = 0) :=
  ⟨by decide, payment_empty_safe 0 none none [] (by decide)⟩

/-- Rounding by `toFixed(2)` keeps a value of `[0, 100]` inside
`[0, 100]`. -/
theorem toFixed2_bounds {q : ℚ} (h0 : 0 ≤ q) (h1 : q ≤ 100) :
    0 ≤ toFixed2 q ∧ toFixed2 q ≤ 100 := by
  have hlo : (0 : ℤ) ≤ Int.floor (q * 100 + 1 / 2) := by
    rw [Int.le_floor]
    push_cast
    linarith
  have hhi : Int.floor (q * 100 + 1 / 2) ≤ (10000 : ℤ) := by
    calc Int.floor (q * 100 + 1 / 2) ≤ Int.floor ((10000 : ℚ) + 1 / 2) :=
          Int.floor_mono (by linarith)
      _ = 10000 := by norm_num
  have hlo' : (0 : ℚ) ≤ ((Int.floor (q * 100 + 1 / 2) : ℤ) : ℚ) := by
    exact_mod_cast hlo
  have hhi' : ((Int.floor (q * 100 + 1 / 2) : ℤ) : ℚ) ≤ 10000 := by
    exact_mod_cast hhi
  unfold toFixed2
  constructor
  · exact div_nonneg hlo' (by norm_num)
  · linarith

/-- C10: over any fetched row set, `completedTransactions` counts a
filtered subset of the rows `totalTransactions` counts, so it is no
larger, and the returned `conversionRate` lies in `[0, 100]` — both for
the canonical operation of src/api/index.js, which returns the guarded
raw ratio, and for the part_000/part_002 variant, which returns that
ratio rounded by `toFixed(2)`. -/
theorem conversion_bounds (now : ℤ) (s e : Option ℤ) (db : List PaymentRow) :
    ((getPaymentAnalytics now s e db).completedTransactions ≤
       (getPaymentAnalytics now s e db).totalTransactions ∧
     0 ≤ (getPaymentAnalytics now s e db).conversionRate ∧
     (getPaymentAnalytics now s e db).conversionRate ≤ 100) ∧
    ((getPaymentAnalyticsRounded now s e db).completedTransactions ≤
       (getPaymentAnalyticsRounded now s e db).totalTransactions ∧
     0 ≤ (getPaymentAnalyticsRounded now s e db).conversionRate ∧
     (getPaymentAnalyticsRounded now s e db).conversionRate ≤ 100) := by
  have hle :
      ((fetchedPayments db s e).filter (fun p => p.status == "completed")).length ≤
        (fetchedPayments db s e).length :=
    List.length_filter_le _ _
  have hcnt : (getPaymentAnalytics now s e db).completedTransactions ≤
      (getPaymentAnalytics now s e db).totalTransactions := by
    simpa [getPaymentAnalytics] using hle
  have hr0 : 0 ≤ (getPaymentAnalytics now s e db).conversionRate := by
    simp only [getPaymentAnalytics]
    split
    · positivity
    · simp
  have hr1 : (getPaymentAnalytics now s e db).conversionRate ≤ 100 := by
    simp only [getPaymentAnalytics]
    split
    · rename_i h
      have hn : (0 : ℚ) < (fetchedPayments db s e).length := by exact_mod_cast h
      have hc :
          (((fetchedPayments db s e).filter (fun p => p.status == "completed")).length : ℚ) ≤
            ((fetchedPayments db s e).length : ℚ) := by exact_mod_cast hle
      have h1 := (div_le_one hn).mpr hc
      calc (((fetchedPayments db s e).filter (fun p => p.status == "completed")).length : ℚ) /
            ((fetchedPayments db s e).length : ℚ) * 100 ≤ 1 * 100 := by
            exact mul_le_mul_of_nonneg_right h1 (by norm_num)
        _ = 100 := by norm_num
    · simp
  have hround := toFixed2_bounds hr0 hr1
  exact ⟨⟨hcnt, hr0, hr1⟩, ⟨hcnt, hround.1, hround.2⟩⟩

/-- C1 counterexample: on the seeded table with one completed and two
pending payments, the part_000/part_002 variant of the operation returns
`(100/3).toFixed(2)`, i.e. the value 33.33, not the unrounded ratio
`1/3 * 100`. The fetched row set is non-empty, so the claim as stated
requires the unrounded value here. -/
theorem conversionRate_unrounded_counterexample :
    fetchedPayments
        [⟨100, "completed", 0⟩, ⟨50, "pending", 0⟩, ⟨25, "pending", 0⟩]
        none none ≠ [] ∧
    (getPaymentAnalyticsRounded 0 none none
        [⟨100, "completed", 0⟩, ⟨50, "pending", 0⟩, ⟨25, "pending", 0⟩]).conversionRate =
      3333 / 100 ∧
    (getPaymentAnalyticsRounded 0 none none
        [⟨100, "completed", 0⟩, ⟨50, "pending", 0⟩, ⟨25, "pending", 0⟩]).conversionRate ≠
      ((1 : ℚ) / 3) * 100 := by
  refine ⟨by decide, ?_, ?_⟩ <;>
    · simp [getPaymentAnalyticsRounded, getPaymentAnalytics, fetchedPayments, toFixed2]
      norm_num

/-- C1 amended: the canonical operation (src/api/index.js) returns the
unrounded ratio `completedTransactions / totalTransactions * 100` on a
non-empty fetched row set and 0 on an empty one; the part_000 and
part_002 variants return that same ratio rounded to two decimal places
by the operation itself. -/
theorem conversionRate_contract (now : ℤ) (s e : Option ℤ) (db : List PaymentRow) :
    (fetchedPayments db s e ≠ [] →
      (getPaymentAnalytics now s e db).conversionRate =
        (((fetchedPayments db s e).filter (fun p => p.status == "completed")).length : ℚ) /
          ((fetchedPayments db s e).length : ℚ) * 100 ∧
      (getPaymentAnalyticsRounded now s e db).conversionRate =
        toFixed2
          ((((fetchedPayments db s e).filter (fun p => p.status == "completed")).length : ℚ) /
            ((fetchedPayments db s e).length : ℚ) * 100)) ∧
    (fetchedPayments db s e = [] →
      (getPaymentAnalytics now s e db).conversionRate = 0 ∧
      (getPaymentAnalyticsRounded now s e db).conversionRate = 0) := by
  constructor
  · intro hne
    have hpos : 0 < (fetchedPayments db s e).length := List.length_pos.mpr hne
    constructor
    · simp [getPaymentAnalytics, hpos]
    · simp [getPaymentAnalyticsRounded, getPaymentAnalytics, hpos]
  · intro hemp
    constructor
    · simp [getPaymentAnalytics, hemp]
    · simp [getPaymentAnalyticsRounded, getPaymentAnalytics, hemp, toFixed2]
      norm_num

/-- Witness for C1 at the spec's seeded example (one completed, one
pending payment). -/
theorem conversionRate_contract_witness :
    fetchedPayments [⟨100, "completed", 0⟩, ⟨50, "pending", 0⟩] none none ≠ [] ∧
    ((getPaymentAnalytics 0 none none
        [⟨100, "completed", 0⟩, ⟨50, "pending", 0⟩]).conversionRate =
      ((([⟨100, "completed", 0⟩, ⟨50, "pending", 0⟩] : List PaymentRow).filter
          (fun p => p.status == "completed")).length : ℚ) /
        (([⟨100, "completed", 0⟩, ⟨50, "pending", 0⟩] : List PaymentRow).length : ℚ) * 100 ∧
     (getPaymentAnalyticsRounded 0 none none
        [⟨100, "completed", 0⟩, ⟨50, "pending", 0⟩]).conversionRate =
      toFixed2
        (((([⟨100, "completed", 0⟩, ⟨50, "pending", 0⟩] : List PaymentRow).filter
            (fun p => p.status == "completed")).length : ℚ) /
          (([⟨100, "completed", 0⟩, ⟨50, "pending", 0⟩] : List PaymentRow).length : ℚ) * 100)) :=
  ⟨by decide,
   (conversionRate_contract 0 none none
      [⟨100, "completed", 0⟩, ⟨50, "pending", 0⟩]).1 (by decide)⟩

/-- C2: `newUsers` is 0 when either bound of the range is absent, and
otherwise counts the rows whose `created_at` lies in the closed interval
`[startDate, endDate]`, both ends inclusive (`.gte` and `.lte`). -/
theorem newUsers_range (now : ℤ) (s e : Option ℤ) (db : List UserRow) :
    ((s = none ∨ e = none) → (getUserAnalytics now s e db).newUsers = 0) ∧
    (∀ sv ev : ℤ, s = some sv → e = some ev →
      (getUserAnalytics now s e db).newUsers =
        (db.filter (fun r =>
          decide (sv ≤ r.created_at) && decide (r.created_at ≤ ev))).length) := by
  constructor
  · rintro (rfl | rfl)
    · simp [getUserAnalytics]
    · cases s <;> simp [getUserAnalytics]
  · rintro sv ev rfl rfl
    simp [getUserAnalytics]

/-- Witness for C2 at boundary data: rows dated exactly at both ends of
the range count, a row one past the end does not, and dropping a bound
yields 0. -/
theorem newUsers_range_witness :
    (getUserAnalytics 0 (some 10) (some 20)
      [⟨"a", "", "", "", 10, 0⟩, ⟨"b", "", "", "", 20, 0⟩, ⟨"c", "", "", "", 21, 0⟩]).newUsers
      = 2 ∧
    (getUserAnalytics 0 none (some 20)
      [⟨"a", "", "", "", 10, 0⟩, ⟨"b", "", "", "", 20, 0⟩, ⟨"c", "", "", "", 21, 0⟩]).newUsers
      = 0 := by
  constructor
  · have h := (newUsers_range 0 (some 10) (some 20)
      [⟨"a", "", "", "", 10, 0⟩, ⟨"b", "", "", "", 20, 0⟩, ⟨"c", "", "", "", 21, 0⟩]).2
      10 20 rfl rfl
    rw [h]; decide
  · exact (newUsers_range 0 none (some 20)
      [⟨"a", "", "", "", 10, 0⟩, ⟨"b", "", "", "", 20, 0⟩, ⟨"c", "", "", "", 21, 0⟩]).1
      (Or.inl rfl)

/-- C3: a non-empty tool name that matches none of the registered names
(exact, case-sensitive comparison) is rejected with status 400, an error
message carrying the offending name, no backend call, and an unchanged
table; no operation runs. -/
theorem unknown_method_rejected (now : ℤ) (udb : List UserRow)
    (pdb : List PaymentRow) (m : String) (p : Params)
    (hne : m ≠ "") (hreg : m ∉ registeredMethods) :
    mcpCall now udb pdb (some m) p =
      ⟨400, some ("Unknown method: " ++ m), [], udb⟩ ∧
    ∃ t, "Unknown method: " ++ m = t ++ m := by
  simp only [registeredMethods, List.mem_cons, List.not_mem_nil, or_false] at hreg
  push_neg at hreg
  obtain ⟨h1, h2, h3⟩ := hreg
  constructor
  · simp [mcpCall, isFalsy, jsShow, hne, h1, h2, h3]
  · exact ⟨"Unknown method: ", rfl⟩

/-- Witness for C3 at the unknown name `bogus_tool`. -/
theorem unknown_method_rejected_witness :
    mcpCall 0 [] [] (some "bogus_tool") Params.empty =
      ⟨400, some ("Unknown method: " ++ "bogus_tool"), [], []⟩ ∧
    ∃ t, "Unknown method: " ++ "bogus_tool" = t ++ "bogus_tool" :=
  unknown_method_rejected 0 [] [] "bogus_tool" Params.empty
    (by decide) (by decide)

/-- C4: `manage_user` delete with a non-empty `userId` yields
`{ deleted: true }` whenever the backend call succeeds, regardless of the
table contents — in particular also when no row carries that id. -/
theorem delete_unverified (db : List UserRow) (uid : String) (data : Patch)
    (h : uid ≠ "") :
    (manageUser db (some "delete") (some uid) data).result =
      .ok (.deleted true) ∧
    ((db.filter (fun r => r.id == uid)).length = 0 →
      (manageUser db (some "delete") (some uid) data).result =
        .ok (.deleted true)) := by
  have hres : (manageUser db (some "delete") (some uid) data).result =
      .ok (.deleted true) := by
    simp [manageUser, isFalsy, h]
  exact ⟨hres, fun _ => hres⟩

/-- Witness for C4 against a table with no matching row. -/
theorem delete_unverified_witness :
    (manageUser [⟨"u1", "e", "n", "user", 0, 0⟩] (some "delete") (some "x")
        Patch.empty).result = .ok (.deleted true) ∧
    ((([⟨"u1", "e", "n", "user", 0, 0⟩] : List UserRow).filter
        (fun r => r.id == "x")).length = 0 →
      (manageUser [⟨"u1", "e", "n", "user", 0, 0⟩] (some "delete") (some "x")
          Patch.empty).result = .ok (.deleted true)) :=
  delete_unverified [⟨"u1", "e", "n", "user", 0, 0⟩] "x" Patch.empty (by decide)

/-- C5: `manage_user` update or delete with an absent or empty `userId`
fails with the `userId is required` error before any backend call is
issued, and the table is unchanged. -/
theorem missing_userId_no_call (db : List UserRow) (act : String)
    (uid : Option String) (data : Patch)
    (hact : act = "update" ∨ act = "delete") (huid : isFalsy uid = true) :
    (manageUser db (some act) uid data).result =
      .error ("userId is required for " ++ act ++ " action") ∧
    (manageUser db (some act) uid data).calls = [] ∧
    (manageUser db (some act) uid data).db = db := by
  rcases hact with rfl | rfl <;> simp [manageUser, huid]

/-- Witness for C5: update with `userId` absent. -/
theorem missing_userId_no_call_witness :
    (manageUser [⟨"u1", "e", "n", "user", 0, 0⟩] (some "update") none
        Patch.empty).result =
      .error ("userId is required for " ++ "update" ++ " action") ∧
    (manageUser [⟨"u1", "e", "n", "user", 0, 0⟩] (some "update") none
        Patch.empty).calls = [] ∧
    (manageUser [⟨"u1", "e", "n", "user", 0, 0⟩] (some "update") none
        Patch.empty).db = [⟨"u1", "e", "n", "user", 0, 0⟩] :=
  missing_userId_no_call [⟨"u1", "e", "n", "user", 0, 0⟩] "update" none
    Patch.empty (Or.inl rfl) (by decide)

/-- C6 counterexample: the first server in part_001 answers
`get_user_analytics` with the literal `activeUsers: 0`. Against a table
whose one row was updated at the current instant, it still returns 0,
while the count of rows updated within the preceding 30 days is 1 — so
`activeUsers` is not that sliding-window count for every call. -/
theorem activeUsers_window_counterexample :
    (getUserAnalyticsMin [⟨"u1", "e", "n", "user", 0, 5184000000⟩]).activeUsers = 0 ∧
    (([⟨"u1", "e", "n", "user", 0, 5184000000⟩] : List UserRow).filter
        (fun r => decide ((5184000000 : ℤ) - thirtyDaysMs ≤ r.updated_at))).length = 1 ∧
    (getUserAnalyticsMin [⟨"u1", "e", "n", "user", 0, 5184000000⟩]).activeUsers ≠
      (([⟨"u1", "e", "n", "user", 0, 5184000000⟩] : List UserRow).filter
        (fun r => decide ((5184000000 : ℤ) - thirtyDaysMs ≤ r.updated_at))).length := by
  refine ⟨rfl, by decide, by decide⟩

/-- C6 amended: in the full servers (src/api/index.js and the complete
variants) `activeUsers` is the count of rows whose `updated_at` is at
least `now - 30 days`, a window recomputed from the call-time clock; the
minimal server in part_001 instead returns the constant 0. -/
theorem activeUsers_window (now : ℤ) (s e : Option ℤ) (db db2 : List UserRow) :
    (getUserAnalytics now s e db).activeUsers =
      (db.filter (fun r => decide (now - thirtyDaysMs ≤ r.updated_at))).length ∧
    (getUserAnalyticsMin db2).activeUsers = 0 := by
  exact ⟨rfl, rfl⟩

/-- C7 counterexample: the `list_users` alias of the first server in
part_001 selects only `id, email, name` (capped at 10 rows). Against a
one-row table the only sequences of full
`(id, email, name, created_at, role)` projections of at most the first
100 rows are the empty one and the one-element one, and the output is
neither. -/
theorem list_projection_counterexample :
    listUsersMin [⟨"u1", "a@b", "Ann", "admin", 5, 6⟩] ≠ [] ∧
    listUsersMin [⟨"u1", "a@b", "Ann", "admin", 5, 6⟩] ≠
      [projFull ⟨"u1", "a@b", "Ann", "admin", 5, 6⟩] := by
  refine ⟨by decide, by decide⟩

/-- C7 amended: `manage_user` with `action = list` returns the full
`(id, email, name, created_at, role)` projections of at most the first
100 rows in table order, with no further pagination; the `list_users`
alias of part_001's first server instead returns `(id, email, name)`
projections of at most the first 10 rows. -/
theorem list_projection (db db2 : List UserRow) (uid : Option String)
    (data : Patch) :
    (manageUser db (some "list") uid data).result =
      .ok (.list ((db.take 100).map projFull)) ∧
    listUsersMin db2 = (db2.take 10).map projMin := by
  exact ⟨by simp [manageUser], rfl⟩

/-- C9 counterexample: a `manage_user` update with no `userId` — a
caller-input validation failure the spec calls `MissingUserId` — is
thrown inside the operation, caught by the generic handler, and
surfaced with status 500, not a 4xx client-error status. -/
theorem error_status_counterexample :
    (functionsManageUser [] (some "update") none Patch.empty).status = 500 ∧
    (functionsManageUser [] (some "update") none Patch.empty).errMsg =
      some "userId is required for update action" ∧
    ¬ (functionsManageUser [] (some "update") none Patch.empty).status < 500 := by
  refine ⟨by decide, by decide, by decide⟩

/-- C9 amended: the errors detected at the handler boundary — a missing
or unknown tool name, and a missing `action` — surface as 400; but
`MissingUserId` and `UnknownAction`, which are thrown inside the
operation, are caught by the same generic handler as backend/runtime
failures (such as an update whose `.single()` matches no row) and all
surface as 500. -/
theorem error_status_mapping (now : ℤ) (udb db : List UserRow)
    (pdb : List PaymentRow) (p : Params) (m uid : String) (data : Patch)
    (hm : m ≠ "") (hreg : m ∉ registeredMethods) (huid : uid ≠ "")
    (hnorow : ∀ r ∈ db, r.id ≠ uid) :
    (mcpCall now udb pdb none p).status = 400 ∧
    (mcpCall now udb pdb (some m) p).status = 400 ∧
    (functionsManageUser db none (some uid) data).status = 400 ∧
    (functionsManageUser db (some "update") none data).status = 500 ∧
    (functionsManageUser db (some "bogus") (some uid) data).status = 500 ∧
    (functionsManageUser db (some "update") (some uid) data).status = 500 := by
  simp only [registeredMethods, List.mem_cons, List.not_mem_nil, or_false] at hreg
  push_neg at hreg
  obtain ⟨h1, h2, h3⟩ := hreg
  have hfind : db.find? (fun r => r.id == uid) = none := by
    rw [List.find?_eq_none]
    intro r hr
    simpa using hnorow r hr
  refine ⟨?_, ?_, ?_, ?_, ?_, ?_⟩
  · simp [mcpCall, isFalsy]
  · simp [mcpCall, isFalsy, hm, h1, h2, h3]
  · simp [functionsManageUser, isFalsy]
  · simp [functionsManageUser, manageUser, isFalsy]
  · simp [functionsManageUser, manageUser, isFalsy, huid]
  · simp [functionsManageUser, manageUser, isFalsy, huid, hfind]

/-- Witness for C9 at concrete inputs: unknown tool `bogus_tool`, user id
`x`, a one-row table not containing `x`. -/
theorem error_status_mapping_witness :
    (mcpCall 0 [] [] none Params.empty).status = 400 ∧
    (mcpCall 0 [] [] (some "bogus_tool") Params.empty).status = 400 ∧
    (functionsManageUser [⟨"u1", "e", "n", "user", 0, 0⟩] none (some "x")
        Patch.empty).status = 400 ∧
    (functionsManageUser [⟨"u1", "e", "n", "user", 0, 0⟩] (some "update") none
        Patch.empty).status = 500 ∧
    (functionsManageUser [⟨"u1", "e", "n", "user", 0, 0⟩] (some "bogus")
        (some "x") Patch.empty).status = 500 ∧
    (functionsManageUser [⟨"u1", "e", "n", "user", 0, 0⟩] (some "update")
        (some "x") Patch.empty).status = 500 :=
  error_status_mapping 0 [] [⟨"u1", "e", "n", "user", 0, 0⟩] [] Params.empty
    "bogus_tool" "x" Patch.empty (by decide) (by decide) (by decide)
    (by decide)

end AdminMcp
